import Mathlib

/-!
Shallow embedding of `substrate-service/src/transaction_pool.rs` (Parity
Secret Store): the conditional response publisher that, for each completed
key-operation outcome, queries the ledger gate, lazily builds the
confirmation call and submits it to the transaction pool, logging every
failure locally.

External collaborators (the `Blockchain` ledger view, the `TransactionPool`
submission collaborator and the `Requester` credential resolver live in
other crates) are modelled as abstract responder functions; the effects of
one invocation (gate queries issued, builder invocations, submissions,
log events) are collected in an explicit `PipelineResult` record so that
the mock-based testable properties of the specification can be stated.
-/

namespace SecretStore

/-- On-chain address (`primitives::Address`), opaque and equality-comparable. -/
abbrev Address : Type := Nat

/-- Key/operation identifier (`primitives::ServerKeyId`), opaque. -/
abbrev ServerKeyId : Type := Nat

/-- Public key / point value (`primitives::Public`), opaque payload. -/
abbrev Public : Type := Nat

/-- Secret share / coefficient (`primitives::Secret`), opaque payload. -/
abbrev Secret : Type := Nat

/-- Artifacts of server key generation: `ServerKeyGenerationArtifacts`, holding `key`. -/
structure ServerKeyGenerationArtifacts where
  key : Public
deriving DecidableEq

/-- Artifacts of server key retrieval: `ServerKeyRetrievalArtifacts`, holding `key` and a `usize` `threshold`. -/
structure ServerKeyRetrievalArtifacts where
  key : Public
  threshold : Nat
deriving DecidableEq

/-- Artifacts of common document key retrieval: `DocumentKeyCommonRetrievalArtifacts`, holding `common_point` and `threshold`. -/
structure DocumentKeyCommonRetrievalArtifacts where
  common_point : Public
  threshold : Nat
deriving DecidableEq

/-- Artifacts of shadow document key retrieval: `DocumentKeyShadowRetrievalArtifacts`,
holding `participants_coefficients` and `encrypted_document_key`; the
participants-coefficients map (`BTreeMap<Address, Secret>` in the source)
is embedded as an association list. -/
structure DocumentKeyShadowRetrievalArtifacts where
  participants_coefficients : List (Address × Secret)
  encrypted_document_key : Public
deriving DecidableEq

/-- Lookup `BTreeMap::get(&a).cloned()` on the association-list embedding. -/
def mapGet (m : List (Address × Secret)) (a : Address) : Option Secret :=
  (m.find? (fun p => p.1 == a)).map Prod.snd

/-- Key list `BTreeMap::keys().cloned().collect::<Vec<_>>()` on the embedding. -/
def mapKeys (m : List (Address × Secret)) : List Address :=
  m.map Prod.fst

/-- Requester credential (`primitives::requester::Requester`): resolved into an
on-chain address via the fallible, operation-id-bound `address` derivation;
`display` stands for its `Display` rendering used in log labels. -/
structure Requester where
  address : ServerKeyId → Except String Address
  display : String

/-- Calls `crate::SecretStoreCall`: the union of publishable call payloads. -/
inductive SecretStoreCall where
  | ServerKeyGenerated (key_id : ServerKeyId) (key : Public)
  | ServerKeyGenerationError (key_id : ServerKeyId)
  | ServerKeyRetrieved (key_id : ServerKeyId) (key : Public) (threshold : Nat)
  | ServerKeyRetrievalError (key_id : ServerKeyId)
  | DocumentKeyStored (key_id : ServerKeyId)
  | DocumentKeyStoreError (key_id : ServerKeyId)
  | DocumentKeyCommonRetrieved (key_id : ServerKeyId) (requester : Address)
      (common_point : Public) (threshold : Nat)
  | DocumentKeyShadowRetrievalError (key_id : ServerKeyId) (requester : Address)
  | DocumentKeyPersonalRetrieved (key_id : ServerKeyId) (requester : Address)
      (participants : List Address) (encrypted_document_key : Public)
      (self_coefficient : Secret)
deriving DecidableEq

/-- Threshold codec `serialize_threshold`: narrows a `usize` threshold into a byte;
`u8::MAX` is 255 and `threshold as u8` is the identity below 256. -/
def serialize_threshold (threshold : Nat) : Except String Nat :=
  if threshold > 255 then
    Except.error ("invalid threshold to use in service contract: " ++ toString threshold)
  else
    Except.ok threshold

/-- One ledger-view query of the `crate::Blockchain` collaborator: the four
`is_*_response_required` methods with their arguments (requester-scoped
queries carry the resolved requester address). -/
inductive GateQuery where
  | ServerKeyGeneration (key_id : ServerKeyId) (key_server : Address)
  | ServerKeyRetrieval (key_id : ServerKeyId) (key_server : Address)
  | DocumentKeyStore (key_id : ServerKeyId) (key_server : Address)
  | DocumentKeyShadowRetrieval (key_id : ServerKeyId) (requester : Address)
      (key_server : Address)
deriving DecidableEq

/-- The node address argument a gate query carries. -/
def GateQuery.node : GateQuery → Address
  | .ServerKeyGeneration _ ks => ks
  | .ServerKeyRetrieval _ ks => ks
  | .DocumentKeyStore _ ks => ks
  | .DocumentKeyShadowRetrieval _ _ ks => ks

/-- The `crate::Blockchain` ledger view, modelled as a responder mapping each
query to its (already resolved) future output. -/
def Blockchain : Type := GateQuery → Except String Bool

/-- The `crate::TransactionPool` collaborator: `submit_transaction` mapped to
its resolved output, a transaction hash rendered as a string or an error. -/
def TransactionPool : Type := SecretStoreCall → Except String String

/-- One observability event: `trace!` (informational) or `error!` (warning)
with the formatted message. -/
inductive Event where
  | trace (message : String)
  | error (message : String)
deriving DecidableEq

deriving instance DecidableEq for Except

/-- Observable effects of one publish invocation: the ledger gate queries
issued, the results of each call-builder invocation, the calls handed to
`submit_transaction`, and the log events emitted. -/
structure PipelineResult where
  gateQueries : List GateQuery
  buildResults : List (Except String SecretStoreCall)
  submissions : List SecretStoreCall
  events : List Event
deriving DecidableEq

/-- Orchestrator `SubstrateTransactionPool::submit_response_transaction`: the composed
gate → builder → submit unit of work, with every failure converted into a
log event. `is_response_required` is the gate future paired with the gate
queries its evaluation issued; `prepare_response` is the lazy builder
closure, forced only when the gate yields `Ok(true)`. -/
def submit_response_transaction
    (transaction_pool : TransactionPool)
    (formatted_request : String)
    (is_response_required : List GateQuery × Except String Bool)
    (prepare_response : Unit → Except String SecretStoreCall) : PipelineResult :=
  match is_response_required.2 with
  | Except.ok true =>
    match prepare_response () with
    | Except.ok transaction =>
      match transaction_pool transaction with
      | Except.ok transaction_hash =>
        ⟨is_response_required.1, [Except.ok transaction], [transaction],
          [Event.trace ("Submitted response " ++ formatted_request ++ ": " ++ transaction_hash)]⟩
      | Except.error e =>
        ⟨is_response_required.1, [Except.ok transaction], [transaction],
          [Event.error ("Failed to submit response " ++ formatted_request ++ ": " ++ e)]⟩
    | Except.error e =>
      ⟨is_response_required.1, [Except.error e], [],
        [Event.error ("Failed to submit response " ++ formatted_request ++ ": " ++ e)]⟩
  | Except.ok false =>
    ⟨is_response_required.1, [], [],
      [Event.trace ("Response " ++ formatted_request ++ " is not required. Transaction is not submitted.")]⟩
  | Except.error e =>
    ⟨is_response_required.1, [], [],
      [Event.error ("Failed to check if response " ++ formatted_request ++ " is required: " ++ e)]⟩

/-- Gate `self.blockchain.is_server_key_generation_response_required(key_id, key_server_address)`
as a gate future paired with the single query it issues. -/
def is_server_key_generation_response_required (blockchain : Blockchain)
    (key_id : ServerKeyId) (key_server_address : Address) :
    List GateQuery × Except String Bool :=
  ([GateQuery.ServerKeyGeneration key_id key_server_address],
    blockchain (GateQuery.ServerKeyGeneration key_id key_server_address))

/-- Gate `self.blockchain.is_server_key_retrieval_response_required(key_id, key_server_address)`. -/
def is_server_key_retrieval_response_required (blockchain : Blockchain)
    (key_id : ServerKeyId) (key_server_address : Address) :
    List GateQuery × Except String Bool :=
  ([GateQuery.ServerKeyRetrieval key_id key_server_address],
    blockchain (GateQuery.ServerKeyRetrieval key_id key_server_address))

/-- Gate `self.blockchain.is_document_key_store_response_required(key_id, key_server_address)`. -/
def is_document_key_store_response_required (blockchain : Blockchain)
    (key_id : ServerKeyId) (key_server_address : Address) :
    List GateQuery × Except String Bool :=
  ([GateQuery.DocumentKeyStore key_id key_server_address],
    blockchain (GateQuery.DocumentKeyStore key_id key_server_address))

/-- Gate `ready(requester.address(&key_id)).and_then(|requester|
blockchain.is_document_key_shadow_retrieval_response_required(key_id, requester, key_server_address))`:
the gate future of the four requester-scoped publish methods. On a
resolution failure no ledger query is issued and the future resolves to
the resolution error. -/
def requester_shadow_gate (blockchain : Blockchain) (requester : Requester)
    (key_id : ServerKeyId) (key_server_address : Address) :
    List GateQuery × Except String Bool :=
  match requester.address key_id with
  | Except.error e => ([], Except.error e)
  | Except.ok r =>
    ([GateQuery.DocumentKeyShadowRetrieval key_id r key_server_address],
      blockchain (GateQuery.DocumentKeyShadowRetrieval key_id r key_server_address))

/-- Publisher state `SubstrateTransactionPool` (executor elided: spawning the composed unit
of work is modelled by evaluating it to its `PipelineResult`). -/
structure SubstrateTransactionPool where
  blockchain : Blockchain
  transaction_pool : TransactionPool
  key_server_address : Address

/-- The 10 outcome kinds the `blockchain_service::TransactionPool` impl
publishes: 5 operation families × {success, failure}, with the payloads the
corresponding publish method receives. -/
inductive Outcome where
  | ServerKeyGenerationSuccess (key_id : ServerKeyId) (artifacts : ServerKeyGenerationArtifacts)
  | ServerKeyGenerationFailure (key_id : ServerKeyId)
  | ServerKeyRetrievalSuccess (key_id : ServerKeyId) (artifacts : ServerKeyRetrievalArtifacts)
  | ServerKeyRetrievalFailure (key_id : ServerKeyId)
  | DocumentKeyStoreSuccess (key_id : ServerKeyId)
  | DocumentKeyStoreFailure (key_id : ServerKeyId)
  | DocumentKeyCommonRetrievalSuccess (key_id : ServerKeyId) (requester : Requester)
      (artifacts : DocumentKeyCommonRetrievalArtifacts)
  | DocumentKeyCommonRetrievalFailure (key_id : ServerKeyId) (requester : Requester)
  | DocumentKeyPersonalRetrievalSuccess (key_id : ServerKeyId) (requester : Requester)
      (artifacts : DocumentKeyShadowRetrievalArtifacts)
  | DocumentKeyPersonalRetrievalFailure (key_id : ServerKeyId) (requester : Requester)

/-- The five operation families of the exposed surface. -/
inductive OutcomeFamily where
  | ServerKeyGeneration
  | ServerKeyRetrieval
  | DocumentKeyStore
  | DocumentKeyCommonRetrieval
  | DocumentKeyPersonalRetrieval
deriving DecidableEq

/-- Family of an outcome kind. -/
def Outcome.family : Outcome → OutcomeFamily
  | .ServerKeyGenerationSuccess .. => .ServerKeyGeneration
  | .ServerKeyGenerationFailure .. => .ServerKeyGeneration
  | .ServerKeyRetrievalSuccess .. => .ServerKeyRetrieval
  | .ServerKeyRetrievalFailure .. => .ServerKeyRetrieval
  | .DocumentKeyStoreSuccess .. => .DocumentKeyStore
  | .DocumentKeyStoreFailure .. => .DocumentKeyStore
  | .DocumentKeyCommonRetrievalSuccess .. => .DocumentKeyCommonRetrieval
  | .DocumentKeyCommonRetrievalFailure .. => .DocumentKeyCommonRetrieval
  | .DocumentKeyPersonalRetrievalSuccess .. => .DocumentKeyPersonalRetrieval
  | .DocumentKeyPersonalRetrievalFailure .. => .DocumentKeyPersonalRetrieval

/-- The operation id of an outcome. -/
def Outcome.key_of : Outcome → ServerKeyId
  | .ServerKeyGenerationSuccess key_id _ => key_id
  | .ServerKeyGenerationFailure key_id => key_id
  | .ServerKeyRetrievalSuccess key_id _ => key_id
  | .ServerKeyRetrievalFailure key_id => key_id
  | .DocumentKeyStoreSuccess key_id => key_id
  | .DocumentKeyStoreFailure key_id => key_id
  | .DocumentKeyCommonRetrievalSuccess key_id _ _ => key_id
  | .DocumentKeyCommonRetrievalFailure key_id _ => key_id
  | .DocumentKeyPersonalRetrievalSuccess key_id _ _ => key_id
  | .DocumentKeyPersonalRetrievalFailure key_id _ => key_id

/-- The requester credential of a requester-scoped outcome, `none` for
operation-scoped families. -/
def Outcome.requester_of : Outcome → Option Requester
  | .DocumentKeyCommonRetrievalSuccess _ requester _ => some requester
  | .DocumentKeyCommonRetrievalFailure _ requester => some requester
  | .DocumentKeyPersonalRetrievalSuccess _ requester _ => some requester
  | .DocumentKeyPersonalRetrievalFailure _ requester => some requester
  | _ => none

/-- The `formatted_request` label each publish method builds for
observability (`format!` in the source). -/
def outcome_label : Outcome → String
  | .ServerKeyGenerationSuccess key_id _ =>
    "ServerKeyGenerationSuccess(" ++ toString key_id ++ ")"
  | .ServerKeyGenerationFailure key_id =>
    "ServerKeyGenerationFailure(" ++ toString key_id ++ ")"
  | .ServerKeyRetrievalSuccess key_id _ =>
    "ServerKeyRetrievalSuccess(" ++ toString key_id ++ ")"
  | .ServerKeyRetrievalFailure key_id =>
    "ServerKeyRetrievalFailure(" ++ toString key_id ++ ")"
  | .DocumentKeyStoreSuccess key_id =>
    "DocumentKeyStoreSuccess(" ++ toString key_id ++ ")"
  | .DocumentKeyStoreFailure key_id =>
    "DocumentKeyStoreFailure(" ++ toString key_id ++ ")"
  | .DocumentKeyCommonRetrievalSuccess key_id requester _ =>
    "DocumentKeyCommonRetrievalSuccess(" ++ toString key_id ++ ", " ++ requester.display ++ ")"
  | .DocumentKeyCommonRetrievalFailure key_id requester =>
    "DocumentKeyCommonRetrievalFailure(" ++ toString key_id ++ ", " ++ requester.display ++ ")"
  | .DocumentKeyPersonalRetrievalSuccess key_id requester _ =>
    "DocumentKeyPersonalRetrievalSuccess(" ++ toString key_id ++ ", " ++ requester.display ++ ")"
  | .DocumentKeyPersonalRetrievalFailure key_id requester =>
    "DocumentKeyPersonalRetrievalFailure(" ++ toString key_id ++ ", " ++ requester.display ++ ")"

/-- The lazy `prepare_response` closure each publish method passes to
`submit_response_transaction`, gathered into one total function over the
outcome union (the per-variant bodies are verbatim from the source
closures). `key_server_address` is the captured `self.key_server_address`,
used only by the DocumentKeyPersonalRetrieval success builder. -/
def prepare_response (key_server_address : Address) : Outcome → Except String SecretStoreCall
  | .ServerKeyGenerationSuccess key_id artifacts =>
    Except.ok (SecretStoreCall.ServerKeyGenerated key_id artifacts.key)
  | .ServerKeyGenerationFailure key_id =>
    Except.ok (SecretStoreCall.ServerKeyGenerationError key_id)
  | .ServerKeyRetrievalSuccess key_id artifacts =>
    (serialize_threshold artifacts.threshold).map
      (fun threshold => SecretStoreCall.ServerKeyRetrieved key_id artifacts.key threshold)
  | .ServerKeyRetrievalFailure key_id =>
    Except.ok (SecretStoreCall.ServerKeyRetrievalError key_id)
  | .DocumentKeyStoreSuccess key_id =>
    Except.ok (SecretStoreCall.DocumentKeyStored key_id)
  | .DocumentKeyStoreFailure key_id =>
    Except.ok (SecretStoreCall.DocumentKeyStoreError key_id)
  | .DocumentKeyCommonRetrievalSuccess key_id requester artifacts =>
    (((serialize_threshold artifacts.threshold).bind
        (fun threshold => (requester.address key_id).map
          (fun r => (threshold, r)))).map
      (fun tr => SecretStoreCall.DocumentKeyCommonRetrieved
        key_id tr.2 artifacts.common_point tr.1))
  | .DocumentKeyCommonRetrievalFailure key_id requester =>
    (requester.address key_id).map
      (fun r => SecretStoreCall.DocumentKeyShadowRetrievalError key_id r)
  | .DocumentKeyPersonalRetrievalSuccess key_id requester artifacts =>
    match mapGet artifacts.participants_coefficients key_server_address with
    | none => Except.error
        "DocumentKeyPersonalRetrieval session has completed without self coefficient"
    | some self_coefficient =>
      (requester.address key_id).map
        (fun r => SecretStoreCall.DocumentKeyPersonalRetrieved
          key_id r (mapKeys artifacts.participants_coefficients)
          artifacts.encrypted_document_key self_coefficient)
  | .DocumentKeyPersonalRetrievalFailure key_id requester =>
    (requester.address key_id).map
      (fun r => SecretStoreCall.DocumentKeyShadowRetrievalError key_id r)

/-- Method `fn publish_generated_server_key(&self, _origin, key_id, artifacts)`. -/
def publish_generated_server_key (p : SubstrateTransactionPool) (_origin : Address)
    (key_id : ServerKeyId) (artifacts : ServerKeyGenerationArtifacts) : PipelineResult :=
  submit_response_transaction p.transaction_pool
    (outcome_label (Outcome.ServerKeyGenerationSuccess key_id artifacts))
    (is_server_key_generation_response_required p.blockchain key_id p.key_server_address)
    (fun _ => prepare_response p.key_server_address
      (Outcome.ServerKeyGenerationSuccess key_id artifacts))

/-- Method `fn publish_server_key_generation_error(&self, _origin, key_id)`. -/
def publish_server_key_generation_error (p : SubstrateTransactionPool) (_origin : Address)
    (key_id : ServerKeyId) : PipelineResult :=
  submit_response_transaction p.transaction_pool
    (outcome_label (Outcome.ServerKeyGenerationFailure key_id))
    (is_server_key_generation_response_required p.blockchain key_id p.key_server_address)
    (fun _ => prepare_response p.key_server_address
      (Outcome.ServerKeyGenerationFailure key_id))

/-- Method `fn publish_retrieved_server_key(&self, _origin, key_id, artifacts)`. -/
def publish_retrieved_server_key (p : SubstrateTransactionPool) (_origin : Address)
    (key_id : ServerKeyId) (artifacts : ServerKeyRetrievalArtifacts) : PipelineResult :=
  submit_response_transaction p.transaction_pool
    (outcome_label (Outcome.ServerKeyRetrievalSuccess key_id artifacts))
    (is_server_key_retrieval_response_required p.blockchain key_id p.key_server_address)
    (fun _ => prepare_response p.key_server_address
      (Outcome.ServerKeyRetrievalSuccess key_id artifacts))

/-- Method `fn publish_server_key_retrieval_error(&self, _origin, key_id)`. -/
def publish_server_key_retrieval_error (p : SubstrateTransactionPool) (_origin : Address)
    (key_id : ServerKeyId) : PipelineResult :=
  submit_response_transaction p.transaction_pool
    (outcome_label (Outcome.ServerKeyRetrievalFailure key_id))
    (is_server_key_retrieval_response_required p.blockchain key_id p.key_server_address)
    (fun _ => prepare_response p.key_server_address
      (Outcome.ServerKeyRetrievalFailure key_id))

/-- Method `fn publish_stored_document_key(&self, _origin, key_id)`. -/
def publish_stored_document_key (p : SubstrateTransactionPool) (_origin : Address)
    (key_id : ServerKeyId) : PipelineResult :=
  submit_response_transaction p.transaction_pool
    (outcome_label (Outcome.DocumentKeyStoreSuccess key_id))
    (is_document_key_store_response_required p.blockchain key_id p.key_server_address)
    (fun _ => prepare_response p.key_server_address
      (Outcome.DocumentKeyStoreSuccess key_id))

/-- Method `fn publish_document_key_store_error(&self, _origin, key_id)`. -/
def publish_document_key_store_error (p : SubstrateTransactionPool) (_origin : Address)
    (key_id : ServerKeyId) : PipelineResult :=
  submit_response_transaction p.transaction_pool
    (outcome_label (Outcome.DocumentKeyStoreFailure key_id))
    (is_document_key_store_response_required p.blockchain key_id p.key_server_address)
    (fun _ => prepare_response p.key_server_address
      (Outcome.DocumentKeyStoreFailure key_id))

/-- Method `fn publish_retrieved_document_key_common(&self, _origin, key_id, requester, artifacts)`. -/
def publish_retrieved_document_key_common (p : SubstrateTransactionPool) (_origin : Address)
    (key_id : ServerKeyId) (requester : Requester)
    (artifacts : DocumentKeyCommonRetrievalArtifacts) : PipelineResult :=
  submit_response_transaction p.transaction_pool
    (outcome_label (Outcome.DocumentKeyCommonRetrievalSuccess key_id requester artifacts))
    (requester_shadow_gate p.blockchain requester key_id p.key_server_address)
    (fun _ => prepare_response p.key_server_address
      (Outcome.DocumentKeyCommonRetrievalSuccess key_id requester artifacts))

/-- Method `fn publish_document_key_common_retrieval_error(&self, _origin, key_id, requester)`. -/
def publish_document_key_common_retrieval_error (p : SubstrateTransactionPool)
    (_origin : Address) (key_id : ServerKeyId) (requester : Requester) : PipelineResult :=
  submit_response_transaction p.transaction_pool
    (outcome_label (Outcome.DocumentKeyCommonRetrievalFailure key_id requester))
    (requester_shadow_gate p.blockchain requester key_id p.key_server_address)
    (fun _ => prepare_response p.key_server_address
      (Outcome.DocumentKeyCommonRetrievalFailure key_id requester))

/-- Method `fn publish_retrieved_document_key_personal(&self, _origin, key_id, requester, artifacts)`. -/
def publish_retrieved_document_key_personal (p : SubstrateTransactionPool)
    (_origin : Address) (key_id : ServerKeyId) (requester : Requester)
    (artifacts : DocumentKeyShadowRetrievalArtifacts) : PipelineResult :=
  submit_response_transaction p.transaction_pool
    (outcome_label (Outcome.DocumentKeyPersonalRetrievalSuccess key_id requester artifacts))
    (requester_shadow_gate p.blockchain requester key_id p.key_server_address)
    (fun _ => prepare_response p.key_server_address
      (Outcome.DocumentKeyPersonalRetrievalSuccess key_id requester artifacts))

/-- Method `fn publish_document_key_personal_retrieval_error(&self, _origin, key_id, requester)`. -/
def publish_document_key_personal_retrieval_error (p : SubstrateTransactionPool)
    (_origin : Address) (key_id : ServerKeyId) (requester : Requester) : PipelineResult :=
  submit_response_transaction p.transaction_pool
    (outcome_label (Outcome.DocumentKeyPersonalRetrievalFailure key_id requester))
    (requester_shadow_gate p.blockchain requester key_id p.key_server_address)
    (fun _ => prepare_response p.key_server_address
      (Outcome.DocumentKeyPersonalRetrievalFailure key_id requester))

/-- Dispatcher over the outcome union: each outcome kind routed to its
publish entry point of the `blockchain_service::TransactionPool` impl. -/
def publish (p : SubstrateTransactionPool) (origin : Address) : Outcome → PipelineResult
  | .ServerKeyGenerationSuccess key_id artifacts =>
    publish_generated_server_key p origin key_id artifacts
  | .ServerKeyGenerationFailure key_id =>
    publish_server_key_generation_error p origin key_id
  | .ServerKeyRetrievalSuccess key_id artifacts =>
    publish_retrieved_server_key p origin key_id artifacts
  | .ServerKeyRetrievalFailure key_id =>
    publish_server_key_retrieval_error p origin key_id
  | .DocumentKeyStoreSuccess key_id =>
    publish_stored_document_key p origin key_id
  | .DocumentKeyStoreFailure key_id =>
    publish_document_key_store_error p origin key_id
  | .DocumentKeyCommonRetrievalSuccess key_id requester artifacts =>
    publish_retrieved_document_key_common p origin key_id requester artifacts
  | .DocumentKeyCommonRetrievalFailure key_id requester =>
    publish_document_key_common_retrieval_error p origin key_id requester
  | .DocumentKeyPersonalRetrievalSuccess key_id requester artifacts =>
    publish_retrieved_document_key_personal p origin key_id requester artifacts
  | .DocumentKeyPersonalRetrievalFailure key_id requester =>
    publish_document_key_personal_retrieval_error p origin key_id requester

/-- The gate future each outcome kind evaluates (queries issued, result). -/
def gate_of (p : SubstrateTransactionPool) : Outcome → List GateQuery × Except String Bool
  | .ServerKeyGenerationSuccess key_id _ =>
    is_server_key_generation_response_required p.blockchain key_id p.key_server_address
  | .ServerKeyGenerationFailure key_id =>
    is_server_key_generation_response_required p.blockchain key_id p.key_server_address
  | .ServerKeyRetrievalSuccess key_id _ =>
    is_server_key_retrieval_response_required p.blockchain key_id p.key_server_address
  | .ServerKeyRetrievalFailure key_id =>
    is_server_key_retrieval_response_required p.blockchain key_id p.key_server_address
  | .DocumentKeyStoreSuccess key_id =>
    is_document_key_store_response_required p.blockchain key_id p.key_server_address
  | .DocumentKeyStoreFailure key_id =>
    is_document_key_store_response_required p.blockchain key_id p.key_server_address
  | .DocumentKeyCommonRetrievalSuccess key_id requester _ =>
    requester_shadow_gate p.blockchain requester key_id p.key_server_address
  | .DocumentKeyCommonRetrievalFailure key_id requester =>
    requester_shadow_gate p.blockchain requester key_id p.key_server_address
  | .DocumentKeyPersonalRetrievalSuccess key_id requester _ =>
    requester_shadow_gate p.blockchain requester key_id p.key_server_address
  | .DocumentKeyPersonalRetrievalFailure key_id requester =>
    requester_shadow_gate p.blockchain requester key_id p.key_server_address

/-- Every publish entry point is the gate → builder → submit composition on
its outcome's label, gate and builder. -/
theorem publish_eq_submit (p : SubstrateTransactionPool) (origin : Address) (o : Outcome) :
    publish p origin o =
      submit_response_transaction p.transaction_pool (outcome_label o) (gate_of p o)
        (fun _ => prepare_response p.key_server_address o) := by
  cases o <;> rfl

/-- The method names of the `blockchain_service::TransactionPool` impl for
`SubstrateTransactionPool`, in source order. -/
def publish_entry_points : List String :=
  [ "publish_generated_server_key",
    "publish_server_key_generation_error",
    "publish_retrieved_server_key",
    "publish_server_key_retrieval_error",
    "publish_stored_document_key",
    "publish_document_key_store_error",
    "publish_retrieved_document_key_common",
    "publish_document_key_common_retrieval_error",
    "publish_retrieved_document_key_personal",
    "publish_document_key_personal_retrieval_error" ]

/-- The operation families of the exposed surface, enumerated. -/
def outcome_families : List OutcomeFamily :=
  [ OutcomeFamily.ServerKeyGeneration,
    OutcomeFamily.ServerKeyRetrieval,
    OutcomeFamily.DocumentKeyStore,
    OutcomeFamily.DocumentKeyCommonRetrieval,
    OutcomeFamily.DocumentKeyPersonalRetrieval ]

/-! Test fixtures: concrete collaborators used by the witnesses. -/

/-- Ledger view answering `true` to every gate query. -/
def bcTrue : Blockchain := fun _ => Except.ok true

/-- Ledger view answering `false` to every gate query. -/
def bcFalse : Blockchain := fun _ => Except.ok false

/-- Ledger view failing every gate query. -/
def bcErr : Blockchain := fun _ => Except.error "boom"

/-- Pool accepting every call with a fixed transaction hash. -/
def poolOk : TransactionPool := fun _ => Except.ok "0xdeadbeef"

/-- Pool rejecting every call. -/
def poolErr : TransactionPool := fun _ => Except.error "pool full"

/-- Requester credential resolving to address 7 for every operation. -/
def reqOk : Requester := ⟨fun _ => Except.ok 7, "alice"⟩

/-- Requester credential failing resolution for every operation. -/
def reqBad : Requester := ⟨fun _ => Except.error "bad signature", "mallory"⟩

/-! Helper lemmas shared by the claim proofs. -/

/-- The gate queries recorded by the composed unit of work are exactly the
queries its gate future issued, whatever the branch taken. -/
theorem submit_gateQueries (pool : TransactionPool) (fr : String)
    (g : List GateQuery × Except String Bool)
    (prep : Unit → Except String SecretStoreCall) :
    (submit_response_transaction pool fr g prep).gateQueries = g.1 := by
  unfold submit_response_transaction
  split
  · split
    · split <;> rfl
    · rfl
  · rfl
  · rfl

/-- Every query issued by an outcome's gate carries the node address the
publisher was constructed with. -/
theorem gate_of_node (p : SubstrateTransactionPool) (o : Outcome) :
    ∀ q ∈ (gate_of p o).1, q.node = p.key_server_address := by
  cases o <;>
    first
    | (intro q hq
       simp only [gate_of, is_server_key_generation_response_required,
         is_server_key_retrieval_response_required,
         is_document_key_store_response_required, List.mem_singleton] at hq
       subst hq
       rfl)
    | (intro q hq
       rename_i key_id requester
       simp only [gate_of, requester_shadow_gate] at hq
       rcases hr : requester.address key_id with e | r <;> rw [hr] at hq
       · simp at hq
       · simp only [List.mem_singleton] at hq
         subst hq
         rfl)
    | (intro q hq
       rename_i key_id requester artifacts
       simp only [gate_of, requester_shadow_gate] at hq
       rcases hr : requester.address key_id with e | r <;> rw [hr] at hq
       · simp at hq
       · simp only [List.mem_singleton] at hq
         subst hq
         rfl)

/-- The non-event fields of the composed unit of work do not depend on the
observability label. -/
theorem submit_fields_label_independent (pool : TransactionPool) (fr1 fr2 : String)
    (g : List GateQuery × Except String Bool)
    (prep : Unit → Except String SecretStoreCall) :
    (submit_response_transaction pool fr1 g prep).gateQueries =
        (submit_response_transaction pool fr2 g prep).gateQueries ∧
      (submit_response_transaction pool fr1 g prep).buildResults =
        (submit_response_transaction pool fr2 g prep).buildResults ∧
      (submit_response_transaction pool fr1 g prep).submissions =
        (submit_response_transaction pool fr2 g prep).submissions := by
  unfold submit_response_transaction
  refine ⟨?_, ?_, ?_⟩ <;>
    (split <;>
      first
      | rfl
      | (split <;>
          first
          | rfl
          | (split <;> rfl)))

/-! Claim theorems. -/

/-- C1: for every publish entry point, the pool's submit operation is
invoked exactly once when the gate resolves `Ok(true)` and the builder
returns `Ok`, and zero times in every other case (gate `Ok(false)`, gate or
requester-resolution error, builder error). -/
theorem submit_invoked_once_iff_gate_true_and_builder_ok
    (p : SubstrateTransactionPool) (origin : Address) (o : Outcome) :
    (publish p origin o).submissions.length =
      if (gate_of p o).2 = Except.ok true ∧
          (prepare_response p.key_server_address o).isOk = true
      then 1 else 0 := by
  rw [publish_eq_submit]
  unfold submit_response_transaction
  rcases hg : (gate_of p o).2 with e | b
  · simp
  · cases b
    · simp
    · dsimp only
      rcases hb : prepare_response p.key_server_address o with e | c
      · simp [Except.isOk, Except.toBool]
      · dsimp only
        rcases hs : p.transaction_pool c with e | h <;>
          simp [Except.isOk, Except.toBool]

/-- C2: for every outcome kind, when the gate future resolves to an error,
the builder closure is never invoked and nothing is submitted; the only
effect is one warning-level event carrying the error. -/
theorem gate_error_only_warns
    (p : SubstrateTransactionPool) (origin : Address) (o : Outcome) (e : String)
    (h : (gate_of p o).2 = Except.error e) :
    publish p origin o =
      ⟨(gate_of p o).1, [], [],
        [Event.error ("Failed to check if response " ++ outcome_label o ++
          " is required: " ++ e)]⟩ := by
  rw [publish_eq_submit]
  unfold submit_response_transaction
  rw [h]

/-- Witness for C2: a failing ledger view on the ServerKeyGenerationFailure
outcome yields exactly the one warning event. -/
theorem gate_error_only_warns_witness :
    publish ⟨bcErr, poolOk, 1⟩ 0 (Outcome.ServerKeyGenerationFailure 5) =
      ⟨[GateQuery.ServerKeyGeneration 5 1], [], [],
        [Event.error "Failed to check if response ServerKeyGenerationFailure(5) is required: boom"]⟩ :=
  gate_error_only_warns ⟨bcErr, poolOk, 1⟩ 0 (Outcome.ServerKeyGenerationFailure 5) "boom" rfl

/-- C4: `serialize_threshold` succeeds and returns the threshold unchanged
for every value up to 255 and fails with the encoding error for every
larger value; it performs no other validation. -/
theorem serialize_threshold_spec (t : Nat) :
    (t ≤ 255 → serialize_threshold t = Except.ok t) ∧
    (255 < t → serialize_threshold t =
      Except.error ("invalid threshold to use in service contract: " ++ toString t)) := by
  constructor <;> intro h <;> simp [serialize_threshold] <;> omega

/-- Witness for C4: evaluation at 0, 255 and 256. -/
theorem serialize_threshold_spec_witness :
    serialize_threshold 0 = Except.ok 0 ∧
    serialize_threshold 255 = Except.ok 255 ∧
    serialize_threshold 256 =
      Except.error "invalid threshold to use in service contract: 256" :=
  ⟨(serialize_threshold_spec 0).1 (by decide),
    (serialize_threshold_spec 255).1 (by decide),
    (serialize_threshold_spec 256).2 (by decide)⟩

/-- C3 counterexample: a participants-coefficients map that does contain
this node's address does not suffice for the builder to succeed — with an
unresolvable requester credential the builder fails with the resolution
error, refuting the claim as stated. -/
theorem personal_retrieval_builder_counterexample :
    mapGet [(1, 42)] 1 = some 42 ∧
    prepare_response 1
        (Outcome.DocumentKeyPersonalRetrievalSuccess 9 reqBad ⟨[(1, 42)], 5⟩) =
      Except.error "bad signature" :=
  ⟨rfl, rfl⟩

/-- C3 (amended): the DocumentKeyPersonalRetrieval success builder fails
with the self-coefficient error whenever the participants-coefficients map
does not contain this node's address; when the map does contain it and the
requester credential resolves, the builder succeeds, the built call's
own-coefficient field equals the mapped value and its participant-id list
is the key set of the map. -/
theorem personal_retrieval_builder_spec
    (key_server_address : Address) (key_id : ServerKeyId) (requester : Requester)
    (artifacts : DocumentKeyShadowRetrievalArtifacts) :
    (mapGet artifacts.participants_coefficients key_server_address = none →
      prepare_response key_server_address
          (Outcome.DocumentKeyPersonalRetrievalSuccess key_id requester artifacts) =
        Except.error
          "DocumentKeyPersonalRetrieval session has completed without self coefficient") ∧
    (∀ c r, mapGet artifacts.participants_coefficients key_server_address = some c →
      requester.address key_id = Except.ok r →
      prepare_response key_server_address
          (Outcome.DocumentKeyPersonalRetrievalSuccess key_id requester artifacts) =
        Except.ok (SecretStoreCall.DocumentKeyPersonalRetrieved key_id r
          (mapKeys artifacts.participants_coefficients)
          artifacts.encrypted_document_key c)) ∧
    (∀ a, a ∈ mapKeys artifacts.participants_coefficients ↔
      (mapGet artifacts.participants_coefficients a).isSome = true) := by
  refine ⟨?_, ?_, ?_⟩
  · intro h
    simp [prepare_response, h]
  · intro c r hc hr
    simp [prepare_response, hc, hr, Except.map]
  · intro a
    simp [mapKeys, mapGet, List.find?_isSome, List.mem_map, beq_iff_eq]

/-- Witness for C3: a map without the node address 1 fails, a map with it
succeeds with coefficient 42 and participants [1, 2]. -/
theorem personal_retrieval_builder_spec_witness :
    prepare_response 1
        (Outcome.DocumentKeyPersonalRetrievalSuccess 9 reqOk ⟨[(2, 5)], 6⟩) =
      Except.error
        "DocumentKeyPersonalRetrieval session has completed without self coefficient" ∧
    prepare_response 1
        (Outcome.DocumentKeyPersonalRetrievalSuccess 9 reqOk ⟨[(1, 42), (2, 5)], 6⟩) =
      Except.ok (SecretStoreCall.DocumentKeyPersonalRetrieved 9 7 [1, 2] 6 42) :=
  ⟨(personal_retrieval_builder_spec 1 9 reqOk ⟨[(2, 5)], 6⟩).1 rfl,
    (personal_retrieval_builder_spec 1 9 reqOk ⟨[(1, 42), (2, 5)], 6⟩).2.1 42 7 rfl rfl⟩

/-- C5 counterexample: the exposed publishing surface has 10 entry points,
not 8. -/
theorem exposed_surface_count_not_eight : ¬ publish_entry_points.length = 8 := by
  decide

/-- C5 (amended): the exposed surface consists of exactly 10 distinct
methods, one per (operation family × success/failure) over the 5 operation
families. -/
theorem exposed_surface_count :
    publish_entry_points.length = 10 ∧
    publish_entry_points.Nodup ∧
    outcome_families.length = 5 ∧
    publish_entry_points.length = 2 * outcome_families.length ∧
    ∀ f : OutcomeFamily, f ∈ outcome_families := by
  refine ⟨by decide, by decide, by decide, by decide, ?_⟩
  intro f
  cases f <;> simp [outcome_families]

/-- C6: for every requester-scoped outcome kind, a requester-credential
resolution failure means no ledger gate query is issued, the builder is
never invoked, nothing is submitted and exactly one warning event is
emitted whose label references the operation id. -/
theorem requester_resolution_failure_only_warns
    (p : SubstrateTransactionPool) (origin : Address) (o : Outcome)
    (req : Requester) (e : String)
    (hreq : o.requester_of = some req)
    (h : req.address o.key_of = Except.error e) :
    publish p origin o =
      ⟨[], [], [],
        [Event.error ("Failed to check if response " ++ outcome_label o ++
          " is required: " ++ e)]⟩ ∧
    ∃ s1 s2, outcome_label o = s1 ++ toString o.key_of ++ s2 := by
  have hg : gate_of p o = ([], Except.error e) := by
    cases o <;>
      simp_all [Outcome.requester_of, Outcome.key_of, gate_of, requester_shadow_gate]
  constructor
  · rw [publish_eq_submit, hg]
    rfl
  · cases o
    all_goals try simp [Outcome.requester_of] at hreq
    case DocumentKeyCommonRetrievalSuccess key_id requester artifacts =>
      exact ⟨"DocumentKeyCommonRetrievalSuccess(", ", " ++ requester.display ++ ")",
        by simp [outcome_label, Outcome.key_of, String.append_assoc]⟩
    case DocumentKeyCommonRetrievalFailure key_id requester =>
      exact ⟨"DocumentKeyCommonRetrievalFailure(", ", " ++ requester.display ++ ")",
        by simp [outcome_label, Outcome.key_of, String.append_assoc]⟩
    case DocumentKeyPersonalRetrievalSuccess key_id requester artifacts =>
      exact ⟨"DocumentKeyPersonalRetrievalSuccess(", ", " ++ requester.display ++ ")",
        by simp [outcome_label, Outcome.key_of, String.append_assoc]⟩
    case DocumentKeyPersonalRetrievalFailure key_id requester =>
      exact ⟨"DocumentKeyPersonalRetrievalFailure(", ", " ++ requester.display ++ ")",
        by simp [outcome_label, Outcome.key_of, String.append_assoc]⟩

/-- Witness for C6: an unresolvable credential on the common retrieval
failure outcome yields exactly the one warning event and no gate query. -/
theorem requester_resolution_failure_only_warns_witness :
    publish ⟨bcTrue, poolOk, 1⟩ 0 (Outcome.DocumentKeyCommonRetrievalFailure 5 reqBad) =
      ⟨[], [], [],
        [Event.error "Failed to check if response DocumentKeyCommonRetrievalFailure(5, mallory) is required: bad signature"]⟩ ∧
    ∃ s1 s2,
      outcome_label (Outcome.DocumentKeyCommonRetrievalFailure 5 reqBad) =
        s1 ++ toString (Outcome.DocumentKeyCommonRetrievalFailure 5 reqBad).key_of ++ s2 :=
  requester_resolution_failure_only_warns ⟨bcTrue, poolOk, 1⟩ 0
    (Outcome.DocumentKeyCommonRetrievalFailure 5 reqBad) reqBad "bad signature" rfl rfl

/-- C7: when the gate resolves Ok(true) and the builder succeeds the built
call is submitted; a successful submission emits exactly one informational
event carrying the transaction handle, a failed submission emits exactly
one warning event carrying the failure reason, and nothing else escapes. -/
theorem gate_true_builder_ok_submits
    (pool : TransactionPool) (fr : String) (qs : List GateQuery)
    (prep : Unit → Except String SecretStoreCall) (tx : SecretStoreCall)
    (hprep : prep () = Except.ok tx) :
    (∀ h, pool tx = Except.ok h →
      submit_response_transaction pool fr (qs, Except.ok true) prep =
        ⟨qs, [Except.ok tx], [tx],
          [Event.trace ("Submitted response " ++ fr ++ ": " ++ h)]⟩) ∧
    (∀ e, pool tx = Except.error e →
      submit_response_transaction pool fr (qs, Except.ok true) prep =
        ⟨qs, [Except.ok tx], [tx],
          [Event.error ("Failed to submit response " ++ fr ++ ": " ++ e)]⟩) := by
  constructor <;> intro x hx <;>
    (unfold submit_response_transaction
     dsimp only
     rw [hprep]
     dsimp only
     rw [hx])

/-- Witness for C7: an accepting pool logs the handle, a rejecting pool
logs the reason, on a concrete built call. -/
theorem gate_true_builder_ok_submits_witness :
    submit_response_transaction poolOk "ServerKeyGenerationSuccess(5)"
        ([GateQuery.ServerKeyGeneration 5 1], Except.ok true)
        (fun _ => Except.ok (SecretStoreCall.ServerKeyGenerated 5 3)) =
      ⟨[GateQuery.ServerKeyGeneration 5 1],
        [Except.ok (SecretStoreCall.ServerKeyGenerated 5 3)],
        [SecretStoreCall.ServerKeyGenerated 5 3],
        [Event.trace "Submitted response ServerKeyGenerationSuccess(5): 0xdeadbeef"]⟩ ∧
    submit_response_transaction poolErr "ServerKeyGenerationSuccess(5)"
        ([GateQuery.ServerKeyGeneration 5 1], Except.ok true)
        (fun _ => Except.ok (SecretStoreCall.ServerKeyGenerated 5 3)) =
      ⟨[GateQuery.ServerKeyGeneration 5 1],
        [Except.ok (SecretStoreCall.ServerKeyGenerated 5 3)],
        [SecretStoreCall.ServerKeyGenerated 5 3],
        [Event.error "Failed to submit response ServerKeyGenerationSuccess(5): pool full"]⟩ :=
  ⟨(gate_true_builder_ok_submits poolOk "ServerKeyGenerationSuccess(5)"
      [GateQuery.ServerKeyGeneration 5 1] _ _ rfl).1 "0xdeadbeef" rfl,
    (gate_true_builder_ok_submits poolErr "ServerKeyGenerationSuccess(5)"
      [GateQuery.ServerKeyGeneration 5 1] _ _ rfl).2 "pool full" rfl⟩

/-- C8: the call builder is a pure function of the outcome and the fixed
node address — structurally equal outcomes yield identical builder
results (the same error or structurally equal calls). -/
theorem prepare_response_deterministic
    (key_server_address : Address) (o1 o2 : Outcome) (h : o1 = o2) :
    prepare_response key_server_address o1 = prepare_response key_server_address o2 :=
  congrArg (prepare_response key_server_address) h

/-- Witness for C8: two evaluations on one concrete outcome agree. -/
theorem prepare_response_deterministic_witness :
    prepare_response 1 (Outcome.DocumentKeyStoreSuccess 5) =
      prepare_response 1 (Outcome.DocumentKeyStoreSuccess 5) :=
  prepare_response_deterministic 1 (Outcome.DocumentKeyStoreSuccess 5)
    (Outcome.DocumentKeyStoreSuccess 5) rfl

/-- C9: every publish method ignores its origin argument — any two origins
give identical pipelines — and every gate query issued carries the
key_server_address fixed at construction. -/
theorem publish_ignores_origin
    (p : SubstrateTransactionPool) (origin1 origin2 : Address) (o : Outcome) :
    publish p origin1 o = publish p origin2 o ∧
    ∀ q ∈ (publish p origin1 o).gateQueries, q.node = p.key_server_address := by
  refine ⟨by cases o <;> rfl, ?_⟩
  intro q hq
  rw [publish_eq_submit, submit_gateQueries] at hq
  exact gate_of_node p o q hq

/-- Witness for C9: two different origins on a concrete publisher give the
same pipeline and its single gate query carries the constructed address. -/
theorem publish_ignores_origin_witness :
    publish ⟨bcTrue, poolOk, 1⟩ 0 (Outcome.ServerKeyGenerationFailure 5) =
      publish ⟨bcTrue, poolOk, 1⟩ 2 (Outcome.ServerKeyGenerationFailure 5) ∧
    GateQuery.node (GateQuery.ServerKeyGeneration 5 1) = 1 :=
  ⟨(publish_ignores_origin ⟨bcTrue, poolOk, 1⟩ 0 2 (Outcome.ServerKeyGenerationFailure 5)).1,
    (publish_ignores_origin ⟨bcTrue, poolOk, 1⟩ 0 2 (Outcome.ServerKeyGenerationFailure 5)).2
      (GateQuery.ServerKeyGeneration 5 1) (by decide)⟩

/-- C10: the two document-key retrieval failure publish paths run the same
builder, issue the same gate query, record the same build results and make
the same submissions for equal inputs, differing only in the label. -/
theorem retrieval_error_paths_equal
    (p : SubstrateTransactionPool) (origin : Address)
    (key_id : ServerKeyId) (requester : Requester) :
    prepare_response p.key_server_address
        (Outcome.DocumentKeyCommonRetrievalFailure key_id requester) =
      prepare_response p.key_server_address
        (Outcome.DocumentKeyPersonalRetrievalFailure key_id requester) ∧
    (publish_document_key_common_retrieval_error p origin key_id requester).gateQueries =
      (publish_document_key_personal_retrieval_error p origin key_id requester).gateQueries ∧
    (publish_document_key_common_retrieval_error p origin key_id requester).buildResults =
      (publish_document_key_personal_retrieval_error p origin key_id requester).buildResults ∧
    (publish_document_key_common_retrieval_error p origin key_id requester).submissions =
      (publish_document_key_personal_retrieval_error p origin key_id requester).submissions := by
  refine ⟨rfl, ?_⟩
  unfold publish_document_key_common_retrieval_error
    publish_document_key_personal_retrieval_error
  exact submit_fields_label_independent p.transaction_pool
    (outcome_label (Outcome.DocumentKeyCommonRetrievalFailure key_id requester))
    (outcome_label (Outcome.DocumentKeyPersonalRetrievalFailure key_id requester))
    (requester_shadow_gate p.blockchain requester key_id p.key_server_address)
    (fun _ => prepare_response p.key_server_address
      (Outcome.DocumentKeyCommonRetrievalFailure key_id requester))

end SecretStore
